import Mathlib

/-!
Verification of the host-side network-state orchestrator of
azure-container-networking: a shallow embedding of the telemetry framing,
the SNAT endpoint lifecycle helpers (network/endpoint_snatroute_linux.go),
the Azure IPAM invoker (cni/network/invoker_azure.go) and the network
manager operations, together with theorems settling the frozen claims.

External collaborators (the netlink/platform exec clients, the IPAM
delegate plugin, the filesystem) are modelled as explicit outcome
parameters: each call site of the Go code consults the corresponding
outcome and the embedding records the calls it performs in an event trace.
-/

/-! ## Go byte-slice primitives (net.IP)

A Go `net.IP` is a byte slice, embedded here as `List Nat` (one entry per
byte).  `goLen` mirrors `len` on a possibly-nil slice (`len(nil) = 0`).
`ipTo4` and `ipTo16` are the standard library conversions `IP.To4` and
`IP.To16`: `To4` yields the 4-byte form of an IPv4 address (also for the
16-byte v4-in-v6 mapped form), `To16` yields the 16-byte form of any valid
address, and both yield nil (`none`) otherwise. -/

def goLen : Option (List Nat) → Nat
  | none => 0
  | some l => l.length

def isZeros (bs : List Nat) : Bool :=
  bs.all (· == 0)

def ipTo4 (ip : List Nat) : Option (List Nat) :=
  if ip.length == 4 then
    some ip
  else if ip.length == 16 && isZeros (ip.take 10)
      && (ip.get? 10 == some 255) && (ip.get? 11 == some 255) then
    some (ip.drop 12)
  else
    none

def v4InV6Pre : List Nat := [0, 0, 0, 0, 0, 0, 0, 0, 0, 0, 255, 255]

def ipTo16 (ip : List Nat) : Option (List Nat) :=
  if ip.length == 4 then
    some (v4InV6Pre ++ ip)
  else if ip.length == 16 then
    some ip
  else
    none

/-- Stands in for `net.IP.String()`: a textual rendering of the address
bytes.  The claims depend only on which address is stored, never on the
exact textual format. -/
def ipString (ip : List Nat) : String :=
  String.intercalate "." (ip.map toString)

/-- net.IPNet: an address and its mask, both byte lists. -/
structure IPNet where
  ip : List Nat
  mask : List Nat
  deriving Repr, DecidableEq

def IPNet.empty : IPNet := ⟨[], []⟩

/-! ## Telemetry framing (src/unnamed/part_000, package telemetry)

`Delimiter` is the newline byte.  `TelemetryBuffer.Write` copies the
payload, appends the delimiter and writes the whole buffer to the
connection; `read` reads bytes up to and including the first delimiter
(`bufio.Reader.ReadBytes`) and strips the trailing delimiter on success.
The wire is modelled as the byte list carried by the connection. -/

def Delimiter : Nat := 10

/-- bufio.Reader.ReadBytes(Delimiter): the bytes of the stream up to and
including the first delimiter, or an error (`none`) when the stream holds
no delimiter. -/
def readBytesUntilDelim : List Nat → Option (List Nat)
  | [] => none
  | b :: rest =>
    if b == Delimiter then some [b]
    else (readBytesUntilDelim rest).map (b :: ·)

/-- read (part_000 lines 225-232): ReadBytes up to the delimiter, and on
success drop the trailing delimiter byte. -/
def telemetryRead (stream : List Nat) : Option (List Nat) :=
  (readBytesUntilDelim stream).map List.dropLast

/-- TelemetryBuffer.Write (part_000 lines 235-247): the bytes placed on the
wire are a copy of the payload followed by exactly one delimiter byte. -/
def TelemetryBuffer.Write (b : List Nat) : List Nat :=
  b ++ [Delimiter]

/-! ## SNAT endpoint lifecycle (src/network/endpoint_snatroute_linux.go)

The snat.Client is an external collaborator; it is modelled as a record of
the outcomes its operations would produce.  Each embedded function returns
its result together with the ordered list of client operations it actually
invoked. -/

inductive SnatOp
  | createEndpoint
  | allowIPs
  | blockIPs
  | enableFwd
  | allowHostToNC
  | allowNCToHost
  | moveToContainerNS
  | deleteEndpoint
  | deleteHostToNC
  | deleteNCToHost
  deriving Repr, DecidableEq

structure SnatClient where
  createOutcome : Except String Unit
  allowOutcome : Except String Unit
  blockOutcome : Except String Unit
  fwdOutcome : Except String Unit
  allowHostToNCOutcome : Except String Unit
  allowNCToHostOutcome : Except String Unit
  moveOutcome : Except String Unit
  deleteEndpointOutcome : Except String Unit
  deleteHostToNCOutcome : Except String Unit
  deleteNCToHostOutcome : Except String Unit
  deriving Repr

/-- Modelled from the spec: the fixed veth interface name prefix used for
SNAT devices.  Its defining constant lives outside src/; only that it is a
fixed string matters to the claims. -/
def snatVethInterfacePre : String := "azSnatveth"

/-- EndpointInfo, restricted to the field the SNAT name derivation reads. -/
structure EndpointInfo where
  Id : String
  deriving Repr, DecidableEq

/-- GetSnatHostIfName (endpoint_snatroute_linux.go lines 13-15). -/
def GetSnatHostIfName (epInfo : EndpointInfo) : String :=
  snatVethInterfacePre ++ epInfo.Id.take 7

/-- GetSnatContIfName (endpoint_snatroute_linux.go lines 17-19). -/
def GetSnatContIfName (epInfo : EndpointInfo) : String :=
  snatVethInterfacePre ++ epInfo.Id.take 7 ++ "-2"

/-- The NCToHost conditional step at the tail of AddSnatEndpointRules. -/
def addSnatNCToHostStep (c : SnatClient) (ncToHost : Bool) (done : List SnatOp) :
    Except String Unit × List SnatOp :=
  if ncToHost then
    match c.allowNCToHostOutcome with
    | .error e =>
      (.error ("failed to allow inbound from nc to host: " ++ e), done ++ [.allowNCToHost])
    | .ok _ => (.ok (), done ++ [.allowNCToHost])
  else (.ok (), done)

/-- AddSnatEndpointRules (endpoint_snatroute_linux.go lines 28-54): allow
rules, then block rules, then IP forwarding, then the two NAT-direction
rules guarded by their flags; the first failing step returns its wrapped
error at once. -/
def AddSnatEndpointRules (c : SnatClient) (hostToNC ncToHost : Bool) :
    Except String Unit × List SnatOp :=
  match c.allowOutcome with
  | .error e =>
    (.error ("failed to allow ip addresses on snat bridge: " ++ e), [.allowIPs])
  | .ok _ =>
    match c.blockOutcome with
    | .error e =>
      (.error ("failed to block ip addresses on snat bridge: " ++ e), [.allowIPs, .blockIPs])
    | .ok _ =>
      match c.fwdOutcome with
      | .error e =>
        (.error ("failed to enable ip forwarding: " ++ e), [.allowIPs, .blockIPs, .enableFwd])
      | .ok _ =>
        if hostToNC then
          match c.allowHostToNCOutcome with
          | .error e =>
            (.error ("failed to allow inbound from host to nc: " ++ e),
              [.allowIPs, .blockIPs, .enableFwd, .allowHostToNC])
          | .ok _ =>
            addSnatNCToHostStep c ncToHost [.allowIPs, .blockIPs, .enableFwd, .allowHostToNC]
        else
          addSnatNCToHostStep c ncToHost [.allowIPs, .blockIPs, .enableFwd]

/-- MoveSnatEndpointToContainerNS (endpoint_snatroute_linux.go lines
56-64): on a move failure the just-created endpoint is deleted (a failure
of the delete itself is only logged) and the wrapped move error is
returned; on success nothing else happens. -/
def MoveSnatEndpointToContainerNS (c : SnatClient) : Except String Unit × List SnatOp :=
  match c.moveOutcome with
  | .ok _ => (.ok (), [.moveToContainerNS])
  | .error e =>
    (.error ("failed to move snat endpoint to container ns. deleted snat endpoint: " ++ e),
      match c.deleteEndpointOutcome with
      | .error _ => [SnatOp.moveToContainerNS, SnatOp.deleteEndpoint]
      | .ok _ => [SnatOp.moveToContainerNS, SnatOp.deleteEndpoint])

/-- DeleteSnatEndpointRules (endpoint_snatroute_linux.go lines 87-101):
each direction is attempted exactly when its flag is set; a failure is only
logged (the match arms coincide) and the function returns nothing. -/
def DeleteSnatEndpointRules (c : SnatClient) (hostToNC ncToHost : Bool) : List SnatOp :=
  let first :=
    if hostToNC then
      match c.deleteHostToNCOutcome with
      | .error _ => [SnatOp.deleteHostToNC]
      | .ok _ => [SnatOp.deleteHostToNC]
    else []
  let second :=
    if ncToHost then
      match c.deleteNCToHostOutcome with
      | .error _ => [SnatOp.deleteNCToHost]
      | .ok _ => [SnatOp.deleteNCToHost]
    else []
  first ++ second

/-- The full planned sequence of AddSnatEndpointRules operations. -/
def snatAddRulesSeq (hostToNC ncToHost : Bool) : List SnatOp :=
  [.allowIPs, .blockIPs, .enableFwd]
    ++ (if hostToNC then [.allowHostToNC] else [])
    ++ (if ncToHost then [.allowNCToHost] else [])

def isOkE {α : Type} (r : Except String α) : Bool :=
  match r with
  | .ok _ => true
  | .error _ => false

/-! ## Azure IPAM invoker (src/cni/network/invoker_azure.go)

The delegate plugin, the filesystem checks and the state-file removal are
external collaborators, modelled as outcome parameters.  The IPAM section
of the CNI network configuration is embedded with the fields the invoker
reads and writes (`IPAM.Type`, `IPAM.Environment`, `IPAM.Subnet`,
`IPAM.Address`) plus `IPV6Mode`; Go error values built by `Errorf` are
embedded as an inductive taxonomy, one constructor per distinct message. -/

def ipamV6 : String := "azure-vnet-ipamv6"

def optEnvironmentIPv6NodeIpam : String := "azure-ipv6-nodeipam"

/-- The message of ipam.ErrNoAvailableAddressPools. -/
def errNoAvailableAddressPoolsMsg : String := "No available address pools"

/-- The retry condition of Add (invoker_azure.go line 62):
strings.Contains(err.Error(), ErrNoAvailableAddressPools.Error()). -/
def isPoolExhaustedMsg (e : String) : Bool :=
  decide (errNoAvailableAddressPoolsMsg.toList <:+: e.toList)

structure NetworkConfig where
  ipamType : String
  ipamEnvironment : String
  ipamSubnet : String
  ipamAddress : String
  ipv6Mode : String
  deriving Repr, DecidableEq

/-- One subnet of the invoker's NetworkInfo: the prefix address bytes and
the rendered prefix string (`Prefix.IP` and `Prefix.String()`). -/
structure SubnetInfo where
  prefixIP : List Nat
  prefixStr : String
  deriving Repr, DecidableEq

/-- A DelegateAdd/DelegateDel invocation: the plugin name passed as first
argument and the configuration passed to the delegate. -/
structure DelegateCall where
  pluginName : String
  cfg : NetworkConfig
  deriving Repr, DecidableEq

/-- Lines 56-58 and 156-158 of invoker_azure.go: when the NetworkInfo has
subnets, pin the IPAM subnet of the configuration to the first one. -/
def primaryAdjust (subnets : List SubnetInfo) (cfg0 : NetworkConfig) : NetworkConfig :=
  match subnets with
  | [] => cfg0
  | s :: _ => { cfg0 with ipamSubnet := s.prefixStr }

inductive InvokerErr
  | nilConfig
  | allocFailed (e : String)
  | allocV6Failed (e : String)
  | releasePoolFailed (e : String)
  | releaseIpv4Failed (e : String)
  | releaseIpv6Failed (e : String)
  | malformedAddress
  deriving Repr, DecidableEq

/-- Delete (invoker_azure.go lines 151-199).  Dispatch on the optional
address: nil releases the whole pool; an address whose `To4` is 4 bytes
long releases that IPv4 lease (the subnet was set to the first configured
subnet beforehand); otherwise an address whose `To16` is 16 bytes long
releases under the v6 environment/type tags against the first configured
subnet whose prefix is not IPv4 (scanned only when more than one subnet is
configured); anything else is the malformed-address error, with no
delegate call.  The returned list is the sequence of delegate calls. -/
def azureDelete (subnets : List SubnetInfo) (delegateDel : DelegateCall → Except String Unit)
    (address : Option IPNet) (nwCfg : Option NetworkConfig) :
    Except InvokerErr Unit × List DelegateCall :=
  match nwCfg with
  | none => (.error .nilConfig, [])
  | some cfg0 =>
    let cfg := primaryAdjust subnets cfg0
    match address with
    | none =>
      let call : DelegateCall := ⟨cfg.ipamType, cfg⟩
      match delegateDel call with
      | .error e => (.error (.releasePoolFailed e), [call])
      | .ok _ => (.ok (), [call])
    | some addr =>
      if goLen (ipTo4 addr.ip) == 4 then
        let cfg4 := { cfg with ipamAddress := ipString addr.ip }
        let call : DelegateCall := ⟨cfg4.ipamType, cfg4⟩
        match delegateDel call with
        | .error e => (.error (.releaseIpv4Failed e), [call])
        | .ok _ => (.ok (), [call])
      else if goLen (ipTo16 addr.ip) == 16 then
        let base := { cfg with ipamEnvironment := optEnvironmentIPv6NodeIpam,
                               ipamType := ipamV6, ipamAddress := ipString addr.ip }
        let cfg6 := if subnets.length > 1 then
            match subnets.find? (fun s => (ipTo4 s.prefixIP).isNone) with
            | some s => { base with ipamSubnet := s.prefixStr }
            | none => base
          else base
        let call : DelegateCall := ⟨cfg6.ipamType, cfg6⟩
        match delegateDel call with
        | .error e => (.error (.releaseIpv6Failed e), [call])
        | .ok _ => (.ok (), [call])
      else
        (.error .malformedAddress, [])

/-! ### The Add path (invoker_azure.go lines 49-149) -/

structure CniIPConfig where
  address : IPNet
  gateway : List Nat
  deriving Repr, DecidableEq

structure CniRoute where
  dst : IPNet
  gw : List Nat
  deriving Repr, DecidableEq

structure CniDNS where
  domain : String
  nameservers : List String
  deriving Repr, DecidableEq

/-- cniTypesCurr.Result, restricted to the fields Add reads. -/
structure CniResult where
  ips : List CniIPConfig
  routes : List CniRoute
  dns : CniDNS
  deriving Repr, DecidableEq

structure IPConfig where
  address : IPNet
  gateway : List Nat
  deriving Repr, DecidableEq

structure RouteInfo where
  dst : IPNet
  gw : List Nat
  deriving Repr, DecidableEq

structure DNSInfo where
  suffix : String
  servers : List String
  deriving Repr, DecidableEq

structure InterfaceInfo where
  ipConfigs : List IPConfig
  routes : List RouteInfo
  dns : DNSInfo
  nicType : String
  deriving Repr, DecidableEq

structure IPAMAddResult where
  hostSubnetPre : IPNet
  defaultInterfaceInfo : InterfaceInfo
  ipv6Enabled : Bool
  deriving Repr, DecidableEq

def IPAMAddResult.empty : IPAMAddResult :=
  { hostSubnetPre := IPNet.empty
    defaultInterfaceInfo := { ipConfigs := [], routes := [], dns := ⟨"", []⟩, nicType := "" }
    ipv6Enabled := false }

/-- The observable effects of an Add invocation: delegate allocations
(tagged with the ordinal of the delegate invocation), the removal of the
IPAM state file, and delegate releases performed by the deferred
compensation. -/
inductive AddEvent
  | delegAdd (ordinal : Nat) (pluginName : String) (cfg : NetworkConfig)
  | removeIpamStateFile
  | delegDel (call : DelegateCall)
  deriving Repr, DecidableEq

/-- The collaborators Add consults: the outcome of each DelegateAdd
invocation (by ordinal), the DelegateDel outcome used by the deferred
compensation, and the two CheckIfFileExists outcomes (CNI state file and
IPAM state file). -/
structure AddDeps where
  addResp : Nat → Except String CniResult
  delegateDel : DelegateCall → Except String Unit
  cniCheck : Except String Bool
  ipamCheck : Except String Bool

/-- deleteIpamState (invoker_azure.go lines 124-149): a failing existence
check, or an existing CNI state file, or a missing IPAM state file all end
the function without deleting anything; otherwise os.Remove is invoked on
the IPAM state file (its own failure is only logged). -/
def deleteIpamState (deps : AddDeps) : List AddEvent :=
  match deps.cniCheck with
  | .error _ => []
  | .ok true => []
  | .ok false =>
    match deps.ipamCheck with
    | .error _ => []
    | .ok false => []
    | .ok true => [.removeIpamStateFile]

/-- The v6 copy of the configuration (invoker_azure.go lines 89-96): the
v6 environment and delegate-type tags, and the second configured subnet
when there is one. -/
def v6Retag (subnets : List SubnetInfo) (cfg : NetworkConfig) : NetworkConfig :=
  let base := { cfg with ipamEnvironment := optEnvironmentIPv6NodeIpam, ipamType := ipamV6 }
  if subnets.length > 1 then
    match subnets.get? 1 with
    | some s => { base with ipamSubnet := s.prefixStr }
    | none => base
  else base

/-- The optional IPv6 allocation of Add (invoker_azure.go lines 88-107):
when IPV6Mode is set, a copy of the configuration is retagged with the v6
environment and delegate type, its subnet becomes the second configured
subnet when there is one, and the delegate is invoked once more; a failure
leaves the primary result and records the pending v6 error, a success
appends the v6 addresses and routes.  Yields (result, ipv6Enabled,
pending error, events). -/
def azureAddV6 (subnets : List SubnetInfo) (deps : AddDeps) (cfg : NetworkConfig)
    (result0 : CniResult) (k : Nat) (evts : List AddEvent) :
    CniResult × Bool × Option InvokerErr × List AddEvent :=
  if cfg.ipv6Mode ≠ "" then
    let cfg6 := v6Retag subnets cfg
    let evts6 := evts ++ [.delegAdd k cfg6.ipamType cfg6]
    match deps.addResp k with
    | .error e => (result0, false, some (InvokerErr.allocV6Failed e), evts6)
    | .ok r6 =>
      ({ result0 with ips := result0.ips ++ r6.ips, routes := result0.routes ++ r6.routes },
        true, none, evts6)
  else (result0, false, none, evts)

/-- The closing phase of Add (invoker_azure.go lines 109-121 and the defer
of lines 76-86): build the interface info from the accumulated result, and
when an error is pending at return let the deferred compensation release
the first obtained address -- the defer cannot change the returned error
because the results of Add are unnamed. -/
def azureAddFinish (subnets : List SubnetInfo) (deps : AddDeps) (cfg : NetworkConfig)
    (hostPre : IPNet) : CniResult × Bool × Option InvokerErr × List AddEvent →
    (IPAMAddResult × Option InvokerErr) × List AddEvent
  | (result, ipv6Enabled, errPending, evts1) =>
    let addResult : IPAMAddResult :=
      { hostSubnetPre := hostPre
        defaultInterfaceInfo :=
          { ipConfigs := result.ips.map (fun ipc => { address := ipc.address, gateway := ipc.gateway })
            routes := result.routes.map (fun r => { dst := r.dst, gw := r.gw })
            dns := { suffix := result.dns.domain, servers := result.dns.nameservers }
            nicType := "InfraNIC" }
        ipv6Enabled := ipv6Enabled }
    match errPending with
    | none => ((addResult, none), evts1)
    | some e =>
      match addResult.defaultInterfaceInfo.ipConfigs with
      | [] => ((addResult, some e), evts1)
      | ipc :: _ =>
        let delCalls := (azureDelete subnets deps.delegateDel (some ipc.address) (some cfg)).2
        ((addResult, some e), evts1 ++ delCalls.map AddEvent.delegDel)

/-- The tail of Add after the primary pool allocation succeeded
(invoker_azure.go lines 72-121): capture the host subnet prefix, run the
optional IPv6 allocation, then close. -/
def azureAddPost (subnets : List SubnetInfo) (deps : AddDeps) (cfg : NetworkConfig)
    (result0 : CniResult) (k : Nat) (evts : List AddEvent) :
    (IPAMAddResult × Option InvokerErr) × List AddEvent :=
  let hostPre := match result0.ips with
    | [] => IPNet.empty
    | ipc :: _ => ipc.address
  azureAddFinish subnets deps cfg hostPre (azureAddV6 subnets deps cfg result0 k evts)

/-- Is this event a delegate allocation through the primary IPAM plugin of
the given configuration? -/
def isPrimaryAddEvent (cfg : NetworkConfig) : AddEvent → Bool
  | .delegAdd _ name _ => name == cfg.ipamType
  | _ => false

/-- Add (invoker_azure.go lines 49-122): reject a nil configuration, pin
the IPAM subnet to the first configured subnet, invoke the delegate, and
when that first attempt fails with a message containing the
pool-exhaustion message run deleteIpamState and invoke the delegate once
more; a still-failing (or otherwise failing) allocation is wrapped and
returned, a successful one continues with azureAddPost. -/
def azureAdd (subnets : List SubnetInfo) (deps : AddDeps) (nwCfg : Option NetworkConfig) :
    (IPAMAddResult × Option InvokerErr) × List AddEvent :=
  match nwCfg with
  | none => ((IPAMAddResult.empty, some .nilConfig), [])
  | some cfg0 =>
    let cfg := primaryAdjust subnets cfg0
    let e0 : List AddEvent := [.delegAdd 0 cfg.ipamType cfg]
    match deps.addResp 0 with
    | .ok result => azureAddPost subnets deps cfg result 1 e0
    | .error e =>
      if isPoolExhaustedMsg e then
        let evts := e0 ++ deleteIpamState deps ++ [AddEvent.delegAdd 1 cfg.ipamType cfg]
        match deps.addResp 1 with
        | .ok result => azureAddPost subnets deps cfg result 2 evts
        | .error e2 => ((IPAMAddResult.empty, some (.allocFailed e2)), evts)
      else
        ((IPAMAddResult.empty, some (.allocFailed e)), e0)

/-! ## Network manager (spec §3, §4.1; tests in src/unnamed/part_001)

The network-manager implementation itself is not among the source files;
only its test file (src/unnamed/part_001) is.  The definitions below are
therefore modelled from the spec, and pinned at the concrete behaviors the
in-repo tests assert.  Go maps are embedded as association lists (iterated
in list order); a map entry holding an explicit nil pointer is modelled as
a `none` value. -/

structure Endpoint where
  Id : String
  ContainerID : String
  NetNs : String
  deriving Repr, DecidableEq

structure Network where
  Id : String
  Mode : String
  NetNs : String
  Endpoints : List (String × Endpoint)
  deriving Repr, DecidableEq

structure ExternalInterface where
  Name : String
  Subnets : List String
  Networks : List (String × Network)
  deriving Repr, DecidableEq

structure NetworkManager where
  ExternalInterfaces : List (String × Option ExternalInterface)
  deriving Repr, DecidableEq

/-- Update (or append) the binding of a key in an association list. -/
def assocUpd {α : Type} (k : String) (v : α) : List (String × α) → List (String × α)
  | [] => [(k, v)]
  | (k', v') :: rest => if k' == k then (k, v) :: rest else (k', v') :: assocUpd k v rest

/-- The nil-safe map read `nm.ExternalInterfaces[name] != nil` used by the
manager: absent keys and explicit nil placeholders both read as `none`. -/
def lookupIf (nm : NetworkManager) (name : String) : Option ExternalInterface :=
  (nm.ExternalInterfaces.lookup name).bind id

inductive NetError
  | networkNotFound
  | networkExists
  | subnetNotFound
  | kernelFailure (e : String)
  deriving Repr, DecidableEq

/-- IsNetworkNotFoundError: the typed classification of the not-found
error, answered without string matching. -/
def IsNetworkNotFoundError : NetError → Bool
  | .networkNotFound => true
  | _ => false

/-- Modelled from the spec: `newExternalInterface(name, subnet)` of the
network manager (its implementation is not under src/) -- a no-op success
when an interface with that name is already registered (the existing
Subnets are preserved and the new subnet is not added), otherwise it
registers a new interface with Subnets = [subnet].  The part_001 test
(lines 18-35) pins the no-op branch. -/
def newExternalInterface (nm : NetworkManager) (ifName subnet : String) :
    Except NetError NetworkManager :=
  match lookupIf nm ifName with
  | some _ => .ok nm
  | none =>
    .ok { nm with
      ExternalInterfaces :=
        assocUpd ifName (some { Name := ifName, Subnets := [subnet], Networks := [] })
          nm.ExternalInterfaces }

/-- Modelled from the spec: `findExternalInterfaceByName` -- a direct map
lookup that reports not-found both for a missing key and for an explicit
nil placeholder. -/
def findExternalInterfaceByName (nm : NetworkManager) (name : String) :
    Option ExternalInterface :=
  lookupIf nm name

/-- Modelled from the spec: `findExternalInterfaceBySubnet` -- a linear
scan over the interfaces returning the first one whose Subnets sequence
holds an exact string match, together with its map key. -/
def findExternalInterfaceBySubnet (nm : NetworkManager) (subnet : String) :
    Option (String × ExternalInterface) :=
  nm.ExternalInterfaces.findSome? (fun p =>
    p.2.bind (fun ext => if ext.Subnets.contains subnet then some (p.1, ext) else none))

/-- The inner loop of the netNs scan: the first network the given matcher
accepts, in map (association-list) order. -/
def scanNetworks (f : Network → Option String) : List (String × Network) → Option String
  | [] => none
  | (_, nw) :: rest =>
    match f nw with
    | some id => some id
    | none => scanNetworks f rest

/-- The outer loop of the netNs scan over the interfaces (nil placeholders
own no networks and are skipped). -/
def scanIfaces (f : Network → Option String) :
    List (String × Option ExternalInterface) → Option String
  | [] => none
  | (_, none) :: rest => scanIfaces f rest
  | (_, some ext) :: rest =>
    match scanNetworks f ext.Networks with
    | some id => some id
    | none => scanIfaces f rest

/-- The per-network test of the netNs scan: a network matches when one of
its endpoints stores the queried NetNs, and yields its own id. -/
def netNsMatcher (netNs : String) (nw : Network) : Option String :=
  if nw.Endpoints.any (fun r => r.2.NetNs == netNs) then some nw.Id else none

/-- Modelled from the spec: `FindNetworkIDFromNetNs(netNs)` of the network
manager (its implementation is not under src/) -- a scan over all
interfaces, their networks and each network's endpoints, returning the id
of the first network owning an endpoint whose NetNs equals the argument,
and the typed networkNotFound error when none does.  The part_001 test
(lines 237-279) pins the matching: the network found there stores a NetNs
different from the query and is matched through its endpoint's NetNs. -/
def FindNetworkIDFromNetNs (nm : NetworkManager) (netNs : String) :
    Except NetError String :=
  match scanIfaces (netNsMatcher netNs) nm.ExternalInterfaces with
  | some id => .ok id
  | none => .error .networkNotFound

/-- The claim's literal wording of FindNetworkIDFromNetNs, for comparison:
return a network whose own stored namespace identity equals netNs. -/
def findNetworkIDFromNetNsSpecWord (nm : NetworkManager) (netNs : String) :
    Except NetError String :=
  match scanIfaces (fun nw => if nw.NetNs == netNs then some nw.Id else none)
      nm.ExternalInterfaces with
  | some id => .ok id
  | none => .error .networkNotFound

/-- Does some network of the manager own an endpoint with this NetNs? -/
def managerHasNetNsMatch (nm : NetworkManager) (netNs : String) : Bool :=
  nm.ExternalInterfaces.any (fun p =>
    match p.2 with
    | none => false
    | some ext => ext.Networks.any (fun q =>
        q.2.Endpoints.any (fun r => r.2.NetNs == netNs)))

/-! ### newNetwork (spec §4.1; part_001 tests lines 97-204) -/

def opModeBridge : String := "bridge"

def opModeTransparent : String := "transparent"

def opModeTransparentVlan : String := "transparent-vlan"

/-- Modelled from the spec: the default operating mode a network receives
when its Mode is empty. -/
def opModeDefault : String := opModeBridge

/-- Modelled from the spec: the bridge-capable operating modes, in which
newNetwork enables IPv4 forwarding on the host.  The part_001 test (lines
185-203) pins transparent-vlan as one of them. -/
def bridgeCapable (mode : String) : Bool :=
  mode == opModeBridge || mode == opModeTransparentVlan

/-- The platform exec collaborator of the manager, restricted to the one
operation newNetwork uses. -/
structure PlatformClient where
  enableIpv4FwdOutcome : Except String Unit
  deriving Repr

/-- The NetworkInfo of a network-creation request, restricted to the
fields the modelled newNetwork reads. -/
structure NetworkInfoReq where
  Id : String
  Mode : String
  MasterIfName : String
  SubnetStrs : List String
  NetNs : String
  deriving Repr, DecidableEq

/-- Resolution of the target external interface (spec §4.1): by name when
MasterIfName is set, otherwise by exact match of the first configured
subnet; the returned string is the map key the interface is stored under. -/
def resolveExtIf (nm : NetworkManager) (info : NetworkInfoReq) :
    Option (String × ExternalInterface) :=
  if info.MasterIfName ≠ "" then
    (findExternalInterfaceByName nm info.MasterIfName).map (fun ext => (info.MasterIfName, ext))
  else
    match info.SubnetStrs with
    | [] => none
    | s :: _ => findExternalInterfaceBySubnet nm s

/-- Modelled from the spec: `newNetwork(info)` of the network manager (its
implementation is not under src/) -- normalize an empty Mode to the
default, resolve the external interface by name or first subnet
(subnetNotFound otherwise), refuse an id already owned by the resolved
interface (networkExists), in bridge-capable modes enable IPv4 forwarding
on the host and fail the whole operation on a forwarding failure without
registering anything, and otherwise register the new network under the
resolved interface.  The third component records whether the forwarding
toggle was invoked. -/
def newNetwork (nm : NetworkManager) (plc : PlatformClient) (info : NetworkInfoReq) :
    Except NetError Network × NetworkManager × Bool :=
  let mode := if info.Mode == "" then opModeDefault else info.Mode
  match resolveExtIf nm info with
  | none => (.error .subnetNotFound, nm, false)
  | some (key, ext) =>
    if (ext.Networks.lookup info.Id).isSome then
      (.error .networkExists, nm, false)
    else
      let nw : Network := { Id := info.Id, Mode := mode, NetNs := info.NetNs, Endpoints := [] }
      let reg : NetworkManager :=
        { nm with
          ExternalInterfaces :=
            assocUpd key (some { ext with Networks := assocUpd info.Id nw ext.Networks })
              nm.ExternalInterfaces }
      if bridgeCapable mode then
        match plc.enableIpv4FwdOutcome with
        | .error e => (.error (.kernelFailure e), nm, true)
        | .ok _ => (.ok nw, reg, true)
      else
        (.ok nw, reg, false)

/-! ## Concrete fixtures

Concrete states used by the witnesses and counterexamples; they mirror the
scenarios of the in-repo tests (src/unnamed/part_001). -/

/-- A snat client whose operations all succeed. -/
def snatClientOk : SnatClient :=
  ⟨.ok (), .ok (), .ok (), .ok (), .ok (), .ok (), .ok (), .ok (), .ok (), .ok ()⟩

/-- A snat client whose namespace move fails while everything else
succeeds. -/
def snatClientMoveFail : SnatClient :=
  ⟨.ok (), .ok (), .ok (), .ok (), .ok (), .ok (), .error "move failed", .ok (), .ok (), .ok ()⟩

/-- A network configuration as the Azure invoker receives it. -/
def cfgFix : NetworkConfig :=
  { ipamType := "azure-vnet-ipam", ipamEnvironment := "azure", ipamSubnet := "",
    ipamAddress := "", ipv6Mode := "" }

/-- Collaborators for the pool-exhaustion counterexample: the first
allocation fails with the pool-exhaustion message, the retry succeeds, and
both local state files exist (the CNI state check answers true). -/
def depsCex : AddDeps :=
  { addResp := fun n =>
      if n == 0 then .error errNoAvailableAddressPoolsMsg else .ok ⟨[], [], ⟨"", []⟩⟩
    delegateDel := fun _ => .ok ()
    cniCheck := .ok true
    ipamCheck := .ok true }

/-- The manager of the part_001 newExternalInterface test: eth0 registered
with one subnet. -/
def nmEth0 : NetworkManager :=
  ⟨[("eth0", some ⟨"eth0", ["10.0.0.0/16"], []⟩)]⟩

/-- The network of the part_001 FindNetworkIDFromNetNs test: its own NetNs
differs from the query, and its endpoint's NetNs is the query. -/
def nwFindFix : Network :=
  { Id := "byovnetbridge-vlan1-10-128-8-0_23"
    Mode := ""
    NetNs := "aaac079b-45a6-485f-8f9e-88b05d6c55c4"
    Endpoints := [("a591be2a-eth0",
      { Id := "a591be2a-eth0"
        ContainerID := ""
        NetNs := "989c079b-45a6-485f-8f9e-88b05d6c55c4" })] }

/-- The manager of the part_001 FindNetworkIDFromNetNs test. -/
def nmFindFix : NetworkManager :=
  ⟨[("byovnetbridge-vlan1-10-128-8-0_23",
    some { Name := "byovnetbridge-vlan1-10-128-8-0_23"
           Subnets := []
           Networks := [("byovnetbridge-vlan1-10-128-8-0_23", nwFindFix)] })]⟩

/-- The manager of the part_001 newNetwork forwarding test: eth0 with no
networks. -/
def nmFwdFix : NetworkManager :=
  ⟨[("eth0", some ⟨"eth0", [], []⟩)]⟩

/-- The request of the part_001 newNetwork forwarding test: transparent
vlan mode, resolved by master interface name. -/
def infoFwdFix : NetworkInfoReq :=
  { Id := "nw", Mode := opModeTransparentVlan, MasterIfName := "eth0",
    SubnetStrs := [], NetNs := "" }

/-- A platform client whose forwarding toggle fails, as
platform.NewMockExecClient(true) makes it. -/
def plcFail : PlatformClient :=
  ⟨.error "mock exec fail"⟩

/-! ## Theorems -/

theorem readBytesUntilDelim_append (b rest : List Nat) (h : Delimiter ∉ b) :
    readBytesUntilDelim (b ++ Delimiter :: rest) = some (b ++ [Delimiter]) := by
  induction b with
  | nil => simp [readBytesUntilDelim]
  | cons x xs ih =>
    have hx : x ≠ Delimiter := fun hc => h (hc ▸ List.mem_cons_self x xs)
    have hxs : Delimiter ∉ xs := fun hm => h (List.mem_cons_of_mem _ hm)
    simp [readBytesUntilDelim, hx, ih hxs]

/-- C10: telemetry framing round-trips -- Write puts the unmodified
payload followed by exactly one delimiter on the wire, and for a payload
free of delimiter bytes the peer's read (whatever bytes follow on the
stream) recovers exactly the original payload, the trailing delimiter
stripped. -/
theorem telemetry_write_read_roundtrip (b rest : List Nat) (h : Delimiter ∉ b) :
    TelemetryBuffer.Write b = b ++ [Delimiter] ∧
    telemetryRead (TelemetryBuffer.Write b ++ rest) = some b := by
  refine ⟨rfl, ?_⟩
  unfold telemetryRead TelemetryBuffer.Write
  rw [show (b ++ [Delimiter]) ++ rest = b ++ Delimiter :: rest by simp]
  rw [readBytesUntilDelim_append b rest h]
  simp

theorem telemetry_write_read_roundtrip_witness :
    telemetryRead (TelemetryBuffer.Write [104, 105] ++ [7, 10]) = some [104, 105] :=
  (telemetry_write_read_roundtrip [104, 105] [7, 10] (by decide)).2

/-- C9: the SNAT host-side and container-side veth names are deterministic
pure functions of the first seven characters of the endpoint id -- the
host name is the fixed veth prefix followed by that seven-character
prefix, the container name is the host name followed by "-2", and any two
endpoint infos agreeing on those seven characters receive identical
names. -/
theorem snat_if_names_deterministic (epInfo : EndpointInfo) (h : 7 ≤ epInfo.Id.length) :
    GetSnatHostIfName epInfo = snatVethInterfacePre ++ epInfo.Id.take 7 ∧
    GetSnatContIfName epInfo = GetSnatHostIfName epInfo ++ "-2" ∧
    (∀ ep2 : EndpointInfo, ep2.Id.take 7 = epInfo.Id.take 7 →
      GetSnatHostIfName ep2 = GetSnatHostIfName epInfo ∧
      GetSnatContIfName ep2 = GetSnatContIfName epInfo) := by
  refine ⟨rfl, rfl, ?_⟩
  intro ep2 h2
  unfold GetSnatHostIfName GetSnatContIfName
  rw [h2]
  exact ⟨rfl, rfl⟩

theorem snat_if_names_deterministic_witness :
    GetSnatContIfName ⟨"abcdefgh"⟩ = GetSnatHostIfName ⟨"abcdefgh"⟩ ++ "-2" :=
  (snat_if_names_deterministic ⟨"abcdefgh"⟩ (by decide)).2.1

/-- C8: DeleteSnatEndpointRules attempts the host-to-container deletion
exactly when hostToNC is set and the container-to-host deletion exactly
when ncToHost is set, whatever either outcome is (a failure is only
logged, it never stops the other direction), and the function has no
error to return. -/
theorem deleteSnatEndpointRules_per_flag (c : SnatClient) (hostToNC ncToHost : Bool) :
    DeleteSnatEndpointRules c hostToNC ncToHost =
      (if hostToNC then [SnatOp.deleteHostToNC] else [])
        ++ (if ncToHost then [SnatOp.deleteNCToHost] else []) ∧
    (SnatOp.deleteHostToNC ∈ DeleteSnatEndpointRules c hostToNC ncToHost ↔ hostToNC = true) ∧
    (SnatOp.deleteNCToHost ∈ DeleteSnatEndpointRules c hostToNC ncToHost ↔ ncToHost = true) := by
  unfold DeleteSnatEndpointRules
  cases c.deleteHostToNCOutcome <;> cases c.deleteNCToHostOutcome <;>
    cases hostToNC <;> cases ncToHost <;> simp

theorem deleteSnatEndpointRules_per_flag_witness :
    SnatOp.deleteNCToHost ∈ DeleteSnatEndpointRules snatClientMoveFail false true :=
  (deleteSnatEndpointRules_per_flag snatClientMoveFail false true).2.2.mpr rfl

/-- C5: when the namespace move of the SNAT endpoint fails, the
just-created endpoint is deleted (the delete is attempted even when it
itself fails, which is only logged) before the wrapped move error is
returned; when the move succeeds no compensating delete happens. -/
theorem moveSnatEndpoint_compensates (c : SnatClient) :
    (∀ e, c.moveOutcome = .error e →
      MoveSnatEndpointToContainerNS c =
        (.error ("failed to move snat endpoint to container ns. deleted snat endpoint: " ++ e),
          [SnatOp.moveToContainerNS, SnatOp.deleteEndpoint])) ∧
    (c.moveOutcome = .ok () →
      MoveSnatEndpointToContainerNS c = (.ok (), [SnatOp.moveToContainerNS])) := by
  constructor
  · intro e he
    unfold MoveSnatEndpointToContainerNS
    rw [he]
    cases c.deleteEndpointOutcome <;> rfl
  · intro hu
    unfold MoveSnatEndpointToContainerNS
    rw [hu]

theorem moveSnatEndpoint_compensates_witness :
    MoveSnatEndpointToContainerNS snatClientMoveFail =
      (.error ("failed to move snat endpoint to container ns. deleted snat endpoint: "
          ++ "move failed"),
        [SnatOp.moveToContainerNS, SnatOp.deleteEndpoint]) :=
  (moveSnatEndpoint_compensates snatClientMoveFail).1 "move failed" rfl

/-- C7: AddSnatEndpointRules performs its operations as a prefix of the
fixed sequence allow-rules, block-rules, enable-forwarding, then the
host-to-container rule exactly when hostToNC is set and the
container-to-host rule exactly when ncToHost is set; it performs the whole
sequence exactly when it returns success, so the allow rules always come
strictly before the block rules and a failing step cuts the sequence off
immediately. -/
theorem addSnatEndpointRules_ordered (c : SnatClient) (hostToNC ncToHost : Bool) :
    (AddSnatEndpointRules c hostToNC ncToHost).2 <+: snatAddRulesSeq hostToNC ncToHost ∧
    (isOkE (AddSnatEndpointRules c hostToNC ncToHost).1 = true →
      (AddSnatEndpointRules c hostToNC ncToHost).2 = snatAddRulesSeq hostToNC ncToHost) ∧
    (isOkE (AddSnatEndpointRules c hostToNC ncToHost).1 = false →
      (AddSnatEndpointRules c hostToNC ncToHost).2 ≠ []) ∧
    (SnatOp.allowHostToNC ∈ (AddSnatEndpointRules c hostToNC ncToHost).2 → hostToNC = true) ∧
    (SnatOp.allowNCToHost ∈ (AddSnatEndpointRules c hostToNC ncToHost).2 → ncToHost = true) := by
  unfold AddSnatEndpointRules addSnatNCToHostStep snatAddRulesSeq
  cases c.allowOutcome <;> cases c.blockOutcome <;> cases c.fwdOutcome <;>
    cases c.allowHostToNCOutcome <;> cases c.allowNCToHostOutcome <;>
    cases hostToNC <;> cases ncToHost <;>
    simp [isOkE, List.cons_prefix_cons]

theorem addSnatEndpointRules_ordered_witness :
    (AddSnatEndpointRules snatClientOk true false).2 = snatAddRulesSeq true false :=
  (addSnatEndpointRules_ordered snatClientOk true false).2.1 (by decide)

/-- C4: the delete path of the Azure invoker dispatches on the address --
no address releases the whole pool through the delegate (no specific
address is set); an address whose To4 form is 4 bytes releases that IPv4
lease, the configuration's subnet being the network's first subnet; an
address whose To16 form is 16 bytes (and which is not IPv4) releases under
the v6 environment and type tags against the first configured subnet
whose prefix is not IPv4 (when more than one subnet is configured and such
a subnet exists); any other address yields the malformed-address error
with no delegate call at all. -/
theorem azureDelete_dispatch (subnets : List SubnetInfo)
    (ddel : DelegateCall → Except String Unit) (cfg0 : NetworkConfig) :
    ((azureDelete subnets ddel none (some cfg0)).2 =
        [⟨(primaryAdjust subnets cfg0).ipamType, primaryAdjust subnets cfg0⟩] ∧
      (primaryAdjust subnets cfg0).ipamAddress = cfg0.ipamAddress) ∧
    (∀ s rest, subnets = s :: rest →
      (primaryAdjust subnets cfg0).ipamSubnet = s.prefixStr) ∧
    (∀ a : IPNet, goLen (ipTo4 a.ip) = 4 →
      (azureDelete subnets ddel (some a) (some cfg0)).2 =
        [⟨(primaryAdjust subnets cfg0).ipamType,
          { primaryAdjust subnets cfg0 with ipamAddress := ipString a.ip }⟩]) ∧
    (∀ a : IPNet, goLen (ipTo4 a.ip) ≠ 4 → goLen (ipTo16 a.ip) = 16 →
      ∀ s, subnets.length > 1 →
        subnets.find? (fun t => (ipTo4 t.prefixIP).isNone) = some s →
        (azureDelete subnets ddel (some a) (some cfg0)).2 =
          [⟨ipamV6,
            { primaryAdjust subnets cfg0 with
                ipamEnvironment := optEnvironmentIPv6NodeIpam
                ipamType := ipamV6
                ipamAddress := ipString a.ip
                ipamSubnet := s.prefixStr }⟩]) ∧
    (∀ a : IPNet, goLen (ipTo4 a.ip) ≠ 4 → goLen (ipTo16 a.ip) ≠ 16 →
      azureDelete subnets ddel (some a) (some cfg0) = (.error .malformedAddress, [])) := by
  refine ⟨⟨?_, ?_⟩, ?_, ?_, ?_, ?_⟩
  · simp only [azureDelete]
    split <;> rfl
  · cases subnets <;> rfl
  · intro s rest hs
    subst hs
    rfl
  · intro a h4
    simp only [azureDelete, h4, beq_self_eq_true, if_true]
    split <;> rfl
  · intro a h4 h16 s hlen hfind
    have hb : (goLen (ipTo4 a.ip) == 4) = false := by simp [h4]
    have hb16 : (goLen (ipTo16 a.ip) == 16) = true := by simp [h16]
    simp only [azureDelete, hb, hb16, Bool.false_eq_true, if_false, if_true, if_pos hlen, hfind]
    split <;> rfl
  · intro a h4 h16
    have hb : (goLen (ipTo4 a.ip) == 4) = false := by simp [h4]
    have hb16 : (goLen (ipTo16 a.ip) == 16) = false := by simp [h16]
    simp only [azureDelete, hb, hb16, Bool.false_eq_true, if_false]

theorem azureDelete_dispatch_witness :
    azureDelete [] (fun _ => .ok ()) (some ⟨[1, 2, 3], []⟩) (some cfgFix) =
      (.error .malformedAddress, []) :=
  (azureDelete_dispatch [] (fun _ => .ok ()) cfgFix).2.2.2.2 ⟨[1, 2, 3], []⟩
    (by decide) (by decide)

theorem primaryAdjust_ipamType (subnets : List SubnetInfo) (cfg0 : NetworkConfig) :
    (primaryAdjust subnets cfg0).ipamType = cfg0.ipamType := by
  cases subnets <;> rfl

theorem primaryAdjust_ipv6Mode (subnets : List SubnetInfo) (cfg0 : NetworkConfig) :
    (primaryAdjust subnets cfg0).ipv6Mode = cfg0.ipv6Mode := by
  cases subnets <;> rfl

theorem v6Retag_ipamType (subnets : List SubnetInfo) (cfg : NetworkConfig) :
    (v6Retag subnets cfg).ipamType = ipamV6 := by
  unfold v6Retag
  by_cases h : subnets.length > 1
  · rw [if_pos h]
    cases subnets.get? 1 <;> rfl
  · rw [if_neg h]

theorem deleteIpamState_mem (deps : AddDeps) :
    AddEvent.removeIpamStateFile ∈ deleteIpamState deps ↔
      (deps.cniCheck = .ok false ∧ deps.ipamCheck = .ok true) := by
  cases hc : deps.cniCheck with
  | error e => simp [deleteIpamState, hc]
  | ok b =>
    cases b
    · cases hi : deps.ipamCheck with
      | error e => simp [deleteIpamState, hc, hi]
      | ok b2 => cases b2 <;> simp [deleteIpamState, hc, hi]
    · simp [deleteIpamState, hc]

theorem deleteIpamState_countP (deps : AddDeps) (cfg : NetworkConfig) :
    (deleteIpamState deps).countP (isPrimaryAddEvent cfg) = 0 := by
  cases hc : deps.cniCheck with
  | error e => simp [deleteIpamState, hc]
  | ok b =>
    cases b
    · cases hi : deps.ipamCheck with
      | error e => simp [deleteIpamState, hc, hi]
      | ok b2 => cases b2 <;> simp [deleteIpamState, hc, hi, isPrimaryAddEvent]
    · simp [deleteIpamState, hc]

theorem azureAddV6_shape (subnets : List SubnetInfo) (deps : AddDeps) (cfg : NetworkConfig)
    (result0 : CniResult) (k : Nat) (evts : List AddEvent) (hty : cfg.ipamType ≠ ipamV6) :
    ∃ post, (azureAddV6 subnets deps cfg result0 k evts).2.2.2 = evts ++ post ∧
      post.countP (isPrimaryAddEvent cfg) = 0 ∧
      AddEvent.removeIpamStateFile ∉ post := by
  unfold azureAddV6
  by_cases h6 : cfg.ipv6Mode = ""
  · rw [if_neg (by simp [h6])]
    exact ⟨[], by simp⟩
  · rw [if_pos h6]
    have hvt : ((v6Retag subnets cfg).ipamType == cfg.ipamType) = false := by
      rw [v6Retag_ipamType]
      simp only [beq_eq_false_iff_ne, ne_eq]
      exact fun hc => hty hc.symm
    cases deps.addResp k <;>
      exact ⟨[.delegAdd k (v6Retag subnets cfg).ipamType (v6Retag subnets cfg)], rfl,
        by simp [isPrimaryAddEvent, hvt], by simp⟩

theorem azureAddV6_none (subnets : List SubnetInfo) (deps : AddDeps) (cfg : NetworkConfig)
    (result0 : CniResult) (k : Nat) (evts : List AddEvent) (h6 : cfg.ipv6Mode = "") :
    azureAddV6 subnets deps cfg result0 k evts = (result0, false, none, evts) := by
  unfold azureAddV6
  rw [if_neg (by simp [h6])]

theorem azureAddFinish_shape (subnets : List SubnetInfo) (deps : AddDeps) (cfg : NetworkConfig)
    (hostPre : IPNet) (t : CniResult × Bool × Option InvokerErr × List AddEvent) :
    ∃ post, (azureAddFinish subnets deps cfg hostPre t).2 = t.2.2.2 ++ post ∧
      post.countP (isPrimaryAddEvent cfg) = 0 ∧
      AddEvent.removeIpamStateFile ∉ post := by
  obtain ⟨result, ipv6E, errP, evts1⟩ := t
  obtain ⟨ips, routes, dns⟩ := result
  cases errP with
  | none => exact ⟨[], by simp [azureAddFinish], by simp, by simp⟩
  | some e =>
    cases ips with
    | nil => exact ⟨[], by simp [azureAddFinish], by simp, by simp⟩
    | cons ipc rest =>
      refine ⟨(azureDelete subnets deps.delegateDel (some ipc.address) (some cfg)).2.map
        AddEvent.delegDel, ?_, ?_, ?_⟩
      · simp [azureAddFinish]
      · rw [List.countP_map]
        simp [Function.comp, isPrimaryAddEvent]
      · simp

theorem azureAddFinish_err (subnets : List SubnetInfo) (deps : AddDeps) (cfg : NetworkConfig)
    (hostPre : IPNet) (result : CniResult) (b : Bool) (errP : Option InvokerErr)
    (evts1 : List AddEvent) :
    (azureAddFinish subnets deps cfg hostPre (result, b, errP, evts1)).1.2 = errP := by
  obtain ⟨ips, routes, dns⟩ := result
  cases errP with
  | none => rfl
  | some e => cases ips <;> rfl

theorem azureAddPost_shape (subnets : List SubnetInfo) (deps : AddDeps) (cfg : NetworkConfig)
    (result0 : CniResult) (k : Nat) (evts : List AddEvent) (hty : cfg.ipamType ≠ ipamV6) :
    ∃ post, (azureAddPost subnets deps cfg result0 k evts).2 = evts ++ post ∧
      post.countP (isPrimaryAddEvent cfg) = 0 ∧
      AddEvent.removeIpamStateFile ∉ post := by
  obtain ⟨p1, hp1, hc1, hm1⟩ := azureAddV6_shape subnets deps cfg result0 k evts hty
  unfold azureAddPost
  obtain ⟨p2, hp2, hc2, hm2⟩ :=
    azureAddFinish_shape subnets deps cfg
      (match result0.ips with
        | [] => IPNet.empty
        | ipc :: _ => ipc.address)
      (azureAddV6 subnets deps cfg result0 k evts)
  refine ⟨p1 ++ p2, ?_, ?_, ?_⟩
  · rw [hp2, hp1, List.append_assoc]
  · simp [List.countP_append, hc1, hc2]
  · simp [hm1, hm2]

/-- C2 (amended): for an Add invocation whose primary IPAM type is not the
v6 delegate type -- a first allocation failure whose message does not
carry the pool-exhaustion message is wrapped and returned after exactly
one delegate call, with no retry and no state-file removal; a first
failure carrying the pool-exhaustion message runs the state cleanup (which
removes the cached IPAM state file exactly when no CNI state file exists
and an IPAM state file does) and re-invokes the delegate exactly once
more, a failing retry failing the Add with the retry's error and a
succeeding retry (without dual-stack) letting the Add succeed; the IPAM
state file is removed only under those conditions, and the primary
delegate is never invoked more than twice. -/
theorem azureAdd_pool_exhaustion_retry (subnets : List SubnetInfo) (deps : AddDeps)
    (cfg0 : NetworkConfig) (hty : cfg0.ipamType ≠ ipamV6) :
    (∀ e, deps.addResp 0 = .error e → isPoolExhaustedMsg e = false →
      azureAdd subnets deps (some cfg0) =
        ((IPAMAddResult.empty, some (.allocFailed e)),
          [.delegAdd 0 (primaryAdjust subnets cfg0).ipamType (primaryAdjust subnets cfg0)])) ∧
    (∀ e, deps.addResp 0 = .error e → isPoolExhaustedMsg e = true →
      (∃ post, (azureAdd subnets deps (some cfg0)).2 =
          .delegAdd 0 (primaryAdjust subnets cfg0).ipamType (primaryAdjust subnets cfg0)
            :: (deleteIpamState deps
              ++ .delegAdd 1 (primaryAdjust subnets cfg0).ipamType (primaryAdjust subnets cfg0)
                :: post)) ∧
      (∀ e2, deps.addResp 1 = .error e2 →
        azureAdd subnets deps (some cfg0) =
          ((IPAMAddResult.empty, some (.allocFailed e2)),
            .delegAdd 0 (primaryAdjust subnets cfg0).ipamType (primaryAdjust subnets cfg0)
              :: (deleteIpamState deps
                ++ [.delegAdd 1 (primaryAdjust subnets cfg0).ipamType
                      (primaryAdjust subnets cfg0)]))) ∧
      (∀ r, deps.addResp 1 = .ok r → cfg0.ipv6Mode = "" →
        (azureAdd subnets deps (some cfg0)).1.2 = none)) ∧
    (AddEvent.removeIpamStateFile ∈ (azureAdd subnets deps (some cfg0)).2 ↔
      ((∃ e, deps.addResp 0 = .error e ∧ isPoolExhaustedMsg e = true) ∧
        deps.cniCheck = .ok false ∧ deps.ipamCheck = .ok true)) ∧
    ((azureAdd subnets deps (some cfg0)).2.countP
        (isPrimaryAddEvent (primaryAdjust subnets cfg0)) ≤ 2) ∧
    (∀ r, deps.addResp 0 = .ok r →
      (azureAdd subnets deps (some cfg0)).2.countP
        (isPrimaryAddEvent (primaryAdjust subnets cfg0)) = 1) := by
  have htyA : (primaryAdjust subnets cfg0).ipamType ≠ ipamV6 := by
    rw [primaryAdjust_ipamType]
    exact hty
  have hself : isPrimaryAddEvent (primaryAdjust subnets cfg0)
      (.delegAdd 0 (primaryAdjust subnets cfg0).ipamType (primaryAdjust subnets cfg0)) = true := by
    simp [isPrimaryAddEvent]
  refine ⟨?_, ?_, ?_, ?_, ?_⟩
  · intro e h0 hex
    simp [azureAdd, h0, hex]
  · intro e h0 hex
    refine ⟨?_, ?_, ?_⟩
    · cases h1 : deps.addResp 1 with
      | error e2 => exact ⟨[], by simp [azureAdd, h0, hex, h1]⟩
      | ok r =>
        obtain ⟨post, hp, _, _⟩ :=
          azureAddPost_shape subnets deps (primaryAdjust subnets cfg0) r 2
            ([.delegAdd 0 (primaryAdjust subnets cfg0).ipamType (primaryAdjust subnets cfg0)]
              ++ deleteIpamState deps
              ++ [.delegAdd 1 (primaryAdjust subnets cfg0).ipamType
                    (primaryAdjust subnets cfg0)]) htyA
        refine ⟨post, ?_⟩
        simp only [azureAdd, h0, hex, if_true, h1]
        rw [hp]
        simp
    · intro e2 h1
      simp [azureAdd, h0, hex, h1]
    · intro r h1 h6
      have h6A : (primaryAdjust subnets cfg0).ipv6Mode = "" := by
        rw [primaryAdjust_ipv6Mode]
        exact h6
      simp only [azureAdd, h0, hex, if_true, h1, azureAddPost]
      rw [azureAddV6_none _ _ _ _ _ _ h6A, azureAddFinish_err]
  · cases h0 : deps.addResp 0 with
    | ok r =>
      obtain ⟨post, hp, _, hm⟩ :=
        azureAddPost_shape subnets deps (primaryAdjust subnets cfg0) r 1
          [.delegAdd 0 (primaryAdjust subnets cfg0).ipamType (primaryAdjust subnets cfg0)] htyA
      simp only [azureAdd, h0]
      rw [hp]
      simp [hm]
    | error e =>
      cases hex : isPoolExhaustedMsg e with
      | false => simp [azureAdd, h0, hex]
      | true =>
        cases h1 : deps.addResp 1 with
        | error e2 =>
          simp only [azureAdd, h0, hex, if_true, h1]
          simp [deleteIpamState_mem, h0, hex]
        | ok r =>
          obtain ⟨post, hp, _, hm⟩ :=
            azureAddPost_shape subnets deps (primaryAdjust subnets cfg0) r 2
              ([.delegAdd 0 (primaryAdjust subnets cfg0).ipamType (primaryAdjust subnets cfg0)]
                ++ deleteIpamState deps
                ++ [.delegAdd 1 (primaryAdjust subnets cfg0).ipamType
                      (primaryAdjust subnets cfg0)]) htyA
          simp only [azureAdd, h0, hex, if_true, h1]
          rw [hp]
          simp [deleteIpamState_mem, hm, h0, hex]
  · cases h0 : deps.addResp 0 with
    | ok r =>
      obtain ⟨post, hp, hc, _⟩ :=
        azureAddPost_shape subnets deps (primaryAdjust subnets cfg0) r 1
          [.delegAdd 0 (primaryAdjust subnets cfg0).ipamType (primaryAdjust subnets cfg0)] htyA
      simp only [azureAdd, h0]
      rw [hp]
      simp [List.countP_cons, hc, hself]
    | error e =>
      cases hex : isPoolExhaustedMsg e with
      | false => simp [azureAdd, h0, hex, List.countP_cons, hself]
      | true =>
        cases h1 : deps.addResp 1 with
        | error e2 =>
          simp only [azureAdd, h0, hex, if_true, h1]
          simp [List.countP_cons, List.countP_append, deleteIpamState_countP, hself,
            isPrimaryAddEvent]
        | ok r =>
          obtain ⟨post, hp, hc, _⟩ :=
            azureAddPost_shape subnets deps (primaryAdjust subnets cfg0) r 2
              ([.delegAdd 0 (primaryAdjust subnets cfg0).ipamType (primaryAdjust subnets cfg0)]
                ++ deleteIpamState deps
                ++ [.delegAdd 1 (primaryAdjust subnets cfg0).ipamType
                      (primaryAdjust subnets cfg0)]) htyA
          simp only [azureAdd, h0, hex, if_true, h1]
          rw [hp]
          simp [List.countP_cons, List.countP_append, deleteIpamState_countP, hself, hc,
            isPrimaryAddEvent]
  · intro r h0
    obtain ⟨post, hp, hc, _⟩ :=
      azureAddPost_shape subnets deps (primaryAdjust subnets cfg0) r 1
        [.delegAdd 0 (primaryAdjust subnets cfg0).ipamType (primaryAdjust subnets cfg0)] htyA
    simp only [azureAdd, h0]
    rw [hp]
    simp [List.countP_cons, hc, hself]

theorem azureAdd_pool_exhaustion_retry_witness :
    (azureAdd [] depsCex (some cfgFix)).1.2 = none :=
  ((azureAdd_pool_exhaustion_retry [] depsCex cfgFix (by decide)).2.1
    errNoAvailableAddressPoolsMsg rfl (by decide)).2.2 ⟨[], [], ⟨"", []⟩⟩ rfl rfl

/-- C2 counterexample: with both local state files present (the CNI state
check answers true) and a first allocation failing with the
pool-exhaustion message, the Add retries the delegate exactly once but the
cached IPAM state file is never removed -- against the claim that the
coordinator deletes any locally cached IPAM state file whenever it
retries. -/
theorem azureAdd_state_file_not_deleted_cex :
    depsCex.addResp 0 = .error errNoAvailableAddressPoolsMsg ∧
    isPoolExhaustedMsg errNoAvailableAddressPoolsMsg = true ∧
    depsCex.ipamCheck = .ok true ∧
    (azureAdd [] depsCex (some cfgFix)).2 =
      [.delegAdd 0 "azure-vnet-ipam" cfgFix, .delegAdd 1 "azure-vnet-ipam" cfgFix] ∧
    AddEvent.removeIpamStateFile ∉ (azureAdd [] depsCex (some cfgFix)).2 := by
  refine ⟨rfl, by decide, rfl, by decide, by decide⟩

theorem assocUpd_lookup {α : Type} (k : String) (v : α) (l : List (String × α)) :
    (assocUpd k v l).lookup k = some v := by
  induction l with
  | nil => simp [assocUpd, List.lookup]
  | cons p rest ih =>
    obtain ⟨k1, v1⟩ := p
    by_cases h : (k1 == k) = true
    · simp [assocUpd, h, List.lookup]
    · have hne : k1 ≠ k := by simpa using h
      have h2 : (k == k1) = false := by
        simp only [beq_eq_false_iff_ne, ne_eq]
        exact fun hc => hne hc.symm
      simp [assocUpd, h, List.lookup, h2, ih]

/-- C1: creating an external interface is first-writer-wins -- when an
interface with that name is already registered the call succeeds as a
no-op leaving the whole manager (hence the stored Subnets) exactly as it
was, and when none is registered the call succeeds and registers an
interface whose Subnets is exactly the one-element sequence of the given
subnet. -/
theorem newExternalInterface_first_writer_wins (nm : NetworkManager) (n s : String) :
    (∀ ext, lookupIf nm n = some ext →
      newExternalInterface nm n s = .ok nm ∧
      (lookupIf nm n).map ExternalInterface.Subnets = some ext.Subnets) ∧
    (lookupIf nm n = none →
      ∃ nm2, newExternalInterface nm n s = .ok nm2 ∧
        (lookupIf nm2 n).map ExternalInterface.Subnets = some [s]) := by
  constructor
  · intro ext hext
    refine ⟨?_, by rw [hext]; rfl⟩
    unfold newExternalInterface
    rw [hext]
  · intro hnone
    have hstep : newExternalInterface nm n s =
        .ok ⟨assocUpd n (some ⟨n, [s], []⟩) nm.ExternalInterfaces⟩ := by
      unfold newExternalInterface
      rw [hnone]
    refine ⟨⟨assocUpd n (some ⟨n, [s], []⟩) nm.ExternalInterfaces⟩, hstep, ?_⟩
    unfold lookupIf
    simp [assocUpd_lookup]

theorem newExternalInterface_first_writer_wins_witness :
    newExternalInterface nmEth0 "eth0" "10.1.0.0/16" = .ok nmEth0 :=
  ((newExternalInterface_first_writer_wins nmEth0 "eth0" "10.1.0.0/16").1
    ⟨"eth0", ["10.0.0.0/16"], []⟩ (by decide)).1

theorem scanNetworks_isSome_match (netNs : String) (nws : List (String × Network)) :
    (scanNetworks (netNsMatcher netNs) nws).isSome =
      nws.any (fun q => q.2.Endpoints.any (fun r => r.2.NetNs == netNs)) := by
  induction nws with
  | nil => rfl
  | cons q rest ih =>
    obtain ⟨k, nw⟩ := q
    cases h : nw.Endpoints.any (fun r => r.2.NetNs == netNs) <;>
      simp [scanNetworks, netNsMatcher, h, ih]

theorem scanIfaces_isSome_match (netNs : String)
    (l : List (String × Option ExternalInterface)) :
    (scanIfaces (netNsMatcher netNs) l).isSome =
      l.any (fun p =>
        match p.2 with
        | none => false
        | some ext => ext.Networks.any (fun q =>
            q.2.Endpoints.any (fun r => r.2.NetNs == netNs))) := by
  induction l with
  | nil => rfl
  | cons p rest ih =>
    obtain ⟨k, optExt⟩ := p
    cases optExt with
    | none => simpa [scanIfaces] using ih
    | some ext =>
      cases hs : scanNetworks (netNsMatcher netNs) ext.Networks with
      | some id =>
        have := scanNetworks_isSome_match netNs ext.Networks
        rw [hs] at this
        simp [scanIfaces, hs, ← this]
      | none =>
        have := scanNetworks_isSome_match netNs ext.Networks
        rw [hs] at this
        simp [scanIfaces, hs, ← this, ih]

theorem scanNetworks_some_inv (f : Network → Option String) (nws : List (String × Network))
    (id : String) (h : scanNetworks f nws = some id) :
    ∃ q ∈ nws, f q.2 = some id := by
  induction nws with
  | nil => exact absurd h (by simp [scanNetworks])
  | cons q rest ih =>
    obtain ⟨k, nw⟩ := q
    cases hf : f nw with
    | some id2 =>
      rw [scanNetworks, hf] at h
      obtain rfl : id2 = id := by injection h
      exact ⟨(k, nw), List.mem_cons_self _ _, hf⟩
    | none =>
      rw [scanNetworks, hf] at h
      obtain ⟨q2, hq2, hfq2⟩ := ih h
      exact ⟨q2, List.mem_cons_of_mem _ hq2, hfq2⟩

theorem scanIfaces_some_inv (f : Network → Option String)
    (l : List (String × Option ExternalInterface)) (id : String)
    (h : scanIfaces f l = some id) :
    ∃ p ∈ l, ∃ ext, p.2 = some ext ∧ ∃ q ∈ ext.Networks, f q.2 = some id := by
  induction l with
  | nil => exact absurd h (by simp [scanIfaces])
  | cons p rest ih =>
    obtain ⟨k, optExt⟩ := p
    cases optExt with
    | none =>
      rw [scanIfaces] at h
      obtain ⟨p2, hp2, hrest⟩ := ih h
      exact ⟨p2, List.mem_cons_of_mem _ hp2, hrest⟩
    | some ext =>
      cases hs : scanNetworks f ext.Networks with
      | some id2 =>
        rw [scanIfaces, hs] at h
        have hid : id2 = id := by injection h
        subst hid
        obtain ⟨q, hq, hfq⟩ := scanNetworks_some_inv f ext.Networks id2 hs
        exact ⟨(k, some ext), List.mem_cons_self _ _, ext, rfl, q, hq, hfq⟩
      | none =>
        rw [scanIfaces, hs] at h
        obtain ⟨p2, hp2, hrest⟩ := ih h
        exact ⟨p2, List.mem_cons_of_mem _ hp2, hrest⟩

theorem managerHasNetNsMatch_eq_isSome (nm : NetworkManager) (netNs : String) :
    managerHasNetNsMatch nm netNs =
      (scanIfaces (netNsMatcher netNs) nm.ExternalInterfaces).isSome := by
  rw [scanIfaces_isSome_match]
  rfl

/-- C3 (amended): FindNetworkIDFromNetNs scans all interfaces and networks
and returns the id of a network one of whose endpoints stores the queried
namespace identity (the network's own NetNs field is not what is
compared); when no endpoint of any network matches, it fails with the
typed networkNotFound error, which IsNetworkNotFoundError recognizes --
never a generic error. -/
theorem findNetworkIDFromNetNs_typed (nm : NetworkManager) (netNs : String) :
    (managerHasNetNsMatch nm netNs = false →
      FindNetworkIDFromNetNs nm netNs = .error .networkNotFound) ∧
    (∀ err, FindNetworkIDFromNetNs nm netNs = .error err →
      IsNetworkNotFoundError err = true) ∧
    (managerHasNetNsMatch nm netNs = true →
      ∃ id, FindNetworkIDFromNetNs nm netNs = .ok id) ∧
    (∀ id, FindNetworkIDFromNetNs nm netNs = .ok id →
      ∃ p ∈ nm.ExternalInterfaces, ∃ ext, p.2 = some ext ∧
        ∃ q ∈ ext.Networks, q.2.Id = id ∧
          q.2.Endpoints.any (fun r => r.2.NetNs == netNs) = true) := by
  have hiso := managerHasNetNsMatch_eq_isSome nm netNs
  refine ⟨?_, ?_, ?_, ?_⟩
  · intro hf
    rw [hiso] at hf
    unfold FindNetworkIDFromNetNs
    cases hs : scanIfaces (netNsMatcher netNs) nm.ExternalInterfaces with
    | some id =>
      rw [hs] at hf
      simp at hf
    | none => rfl
  · intro err herr
    unfold FindNetworkIDFromNetNs at herr
    cases hs : scanIfaces (netNsMatcher netNs) nm.ExternalInterfaces with
    | some id =>
      rw [hs] at herr
      exact absurd herr (by simp)
    | none =>
      rw [hs] at herr
      injection herr with h1
      rw [← h1]
      rfl
  · intro ht
    rw [hiso] at ht
    cases hs : scanIfaces (netNsMatcher netNs) nm.ExternalInterfaces with
    | some id =>
      refine ⟨id, ?_⟩
      unfold FindNetworkIDFromNetNs
      rw [hs]
    | none =>
      rw [hs] at ht
      simp at ht
  · intro id hid
    unfold FindNetworkIDFromNetNs at hid
    cases hs : scanIfaces (netNsMatcher netNs) nm.ExternalInterfaces with
    | none =>
      rw [hs] at hid
      exact absurd hid (by simp)
    | some id2 =>
      rw [hs] at hid
      have hq2 : id2 = id := by injection hid
      subst hq2
      obtain ⟨p, hp, ext, hext, q, hq, hfq⟩ :=
        scanIfaces_some_inv (netNsMatcher netNs) nm.ExternalInterfaces id2 hs
      unfold netNsMatcher at hfq
      by_cases hany : q.2.Endpoints.any (fun r => r.2.NetNs == netNs) = true
      · rw [if_pos hany] at hfq
        exact ⟨p, hp, ext, hext, q, hq, by injection hfq, hany⟩
      · rw [if_neg hany] at hfq
        exact absurd hfq (by simp)

theorem findNetworkIDFromNetNs_typed_witness :
    FindNetworkIDFromNetNs ⟨[]⟩ "989c079b-45a6-485f-8f9e-88b05d6c55c4" =
      .error .networkNotFound :=
  (findNetworkIDFromNetNs_typed ⟨[]⟩ "989c079b-45a6-485f-8f9e-88b05d6c55c4").1 (by decide)

/-- C3 counterexample, the scenario of the part_001 test: the returned
network's own stored namespace identity differs from the queried netNs
(the match went through the endpoint's NetNs), and the claim's literal
reading -- compare the network's stored namespace identity -- would find
nothing there. -/
theorem findNetworkIDFromNetNs_cex :
    FindNetworkIDFromNetNs nmFindFix "989c079b-45a6-485f-8f9e-88b05d6c55c4" =
      .ok "byovnetbridge-vlan1-10-128-8-0_23" ∧
    nwFindFix.NetNs ≠ "989c079b-45a6-485f-8f9e-88b05d6c55c4" ∧
    findNetworkIDFromNetNsSpecWord nmFindFix "989c079b-45a6-485f-8f9e-88b05d6c55c4" =
      .error .networkNotFound :=
  ⟨rfl, by decide, rfl⟩

/-- C6: when newNetwork runs in a bridge-capable mode (after the empty
mode is normalized) on a resolved interface and a fresh network id, it
invokes the IPv4 forwarding toggle on the host; if enabling forwarding
fails, newNetwork returns that failure, no network, and the manager's
hierarchy is exactly unchanged -- the constructed network is not
registered. -/
theorem newNetwork_fwd_failure (nm : NetworkManager) (plc : PlatformClient)
    (info : NetworkInfoReq) (key : String) (ext : ExternalInterface)
    (hres : resolveExtIf nm info = some (key, ext))
    (hfresh : (ext.Networks.lookup info.Id).isSome = false)
    (hmode : bridgeCapable (if info.Mode == "" then opModeDefault else info.Mode) = true) :
    (newNetwork nm plc info).2.2 = true ∧
    (∀ e, plc.enableIpv4FwdOutcome = .error e →
      newNetwork nm plc info = (.error (.kernelFailure e), nm, true)) := by
  unfold newNetwork
  rw [hres]
  simp only [hfresh, Bool.false_eq_true, if_false, hmode, if_true]
  constructor
  · cases plc.enableIpv4FwdOutcome <;> rfl
  · intro e he
    rw [he]

theorem newNetwork_fwd_failure_witness :
    newNetwork nmFwdFix plcFail infoFwdFix =
      (.error (.kernelFailure "mock exec fail"), nmFwdFix, true) :=
  (newNetwork_fwd_failure nmFwdFix plcFail infoFwdFix "eth0" ⟨"eth0", [], []⟩
    (by decide) (by decide) (by decide)).2 "mock exec fail" rfl
